import Mathlib

/-!
Shallow embedding of the topic-listing core of the Tildes excerpt:
`tildes/models/topic/topic_query.py` (TopicQuery) and
`tildes/views/topic.py` (get_group_topics, _get_default_settings).

Database-backed collections (groups table, TopicVote / TopicVisit rows,
UserGroupSettings rows) are modelled as explicit data passed in; SQLAlchemy
query values are modelled as an accumulated list of row predicates together
with the sort state, and executing a query filters a topic collection by the
conjunction of the accumulated predicates.
-/

namespace Tildes

/-- Hierarchical ltree path (PostgreSQL ltree / sqlalchemy_utils Ltree),
modelled as its list of labels. -/
abbrev Ltree := List String

/-- Modelled from the spec (the ltree comparison primitive is outside src/):
a path is a descendant of another iff the ancestor path is a prefix of it;
ltree descendant-of includes equality. -/
def ltreeDescendantOf (child ancestor : Ltree) : Bool :=
  ancestor.isPrefixOf child

/-- SimpleHoursPeriod from tildes.lib.datetime (outside src/).
Modelled from the spec: a duration expressed in whole hours, value-equality
based. -/
structure SimpleHoursPeriod where
  hours : Nat
deriving DecidableEq, Repr

/-- The timedelta of a period, in seconds (hours * 3600). -/
def SimpleHoursPeriod.timedelta (p : SimpleHoursPeriod) : Int :=
  (p.hours : Int) * 3600

/-- TopicSortOption from tildes.enums (outside src/). Modelled from the spec:
the four sort keys are vote count, comment count, creation time and
last-activity time. -/
inductive TopicSortOption where
  | votes
  | comments
  | new
  | activity
deriving DecidableEq, Repr

/-- Modelled from the spec: the runtime argument given to apply_sort_option.
The spec error-handling section contemplates unknown/unmatched sort option
values, which Python dynamic typing admits; such values compare unequal to
every member of the four-key enum. -/
inductive SortArg where
  | known (o : TopicSortOption)
  | unmatched (name : String)
deriving DecidableEq, Repr

/-- Group: identifier plus hierarchical path (group model is outside src/,
modelled from the spec data model). -/
structure Group where
  group_id : Nat
  path : Ltree
deriving DecidableEq, Repr

/-- Topic fields used by the listing core (topic model is outside src/,
modelled from the spec data model). Times are integer timestamps; counts are
Python ints, modelled as Int. -/
structure Topic where
  topic_id : Nat
  group_id : Nat
  created_time : Int
  last_activity_time : Int
  num_votes : Int
  num_comments : Int
  is_pinned : Bool
  tags : List Ltree
deriving DecidableEq, Repr

/-- A TopicVisit row for one (user, topic) pair: visit time and the snapshot
of the comment count at the visit (modelled from the spec data model; the
snapshot is always populated by the upsert flow). -/
structure TopicVisit where
  visit_time : Int
  num_comments : Int
deriving DecidableEq, Repr

/-- The sort column selected by apply_sort_option (one of the four Topic
columns the source assigns to self._sort_column). -/
inductive SortColumn where
  | num_votes
  | num_comments
  | created_time
  | last_activity_time
deriving DecidableEq, Repr

/-- Python exception surfaced by the embedded code. -/
inductive PyError where
  | attributeError (msg : String)
deriving DecidableEq, Repr

/-- A TopicQuery value: the accumulated filter predicates (each .filter call
appends one conjunct) together with the sort state consumed by the pagination
primitive. -/
structure TopicQuery where
  filters : List (Topic → Bool)
  sort_column : SortColumn
  sort_desc : Bool

/-- SQLAlchemy Query.filter (external base class): appends one predicate,
generatively. -/
def TopicQuery.filter (q : TopicQuery) (p : Topic → Bool) : TopicQuery :=
  { q with filters := q.filters ++ [p] }

/-- Whether a topic satisfies every accumulated filter predicate of the
query. -/
def TopicQuery.matches (q : TopicQuery) (t : Topic) : Bool :=
  q.filters.all (fun p => p t)

/-- Modelled from the spec: executing a query (via the external pagination
primitive) returns exactly the rows of the underlying collection satisfying
the accumulated predicates. -/
def TopicQuery.resultSet (q : TopicQuery) (topics : List Topic) : List Topic :=
  topics.filter q.matches

/-- Predicate added by TopicQuery.inside_groups (topic_query.py lines
111-120): the topic group is in the subquery of groups whose path is a
descendant of one of the given groups' paths. `db` is the groups table read
by the subquery. -/
def insideGroupsPred (db : List Group) (groups : List Group) (t : Topic) : Bool :=
  let query_paths := groups.map Group.path
  let subgroup_subquery :=
    (db.filter (fun g => query_paths.any (fun p => ltreeDescendantOf g.path p))).map
      Group.group_id
  subgroup_subquery.contains t.group_id

/-- TopicQuery.inside_groups (topic_query.py lines 111-120). -/
def TopicQuery.inside_groups (q : TopicQuery) (db : List Group)
    (groups : List Group) : TopicQuery :=
  q.filter (insideGroupsPred db groups)

/-- Predicate added by TopicQuery.inside_time_period when a period is
present: Topic.created_time > utc_now() - period.timedelta. -/
def timePeriodPred (now : Int) (period : SimpleHoursPeriod) (t : Topic) : Bool :=
  decide (now - period.timedelta < t.created_time)

/-- TopicQuery.inside_time_period (topic_query.py lines 122-124). The call
site get_group_topics passes the resolved period, which may be None (the
all-time default for the new ordering), so the argument is optional; the body
evaluates period.timedelta unconditionally, so a None period raises
AttributeError, embedded as an error value. -/
def TopicQuery.inside_time_period (q : TopicQuery) (now : Int)
    (period : Option SimpleHoursPeriod) : Except PyError TopicQuery :=
  match period with
  | none =>
      Except.error (PyError.attributeError "NoneType object has no attribute timedelta")
  | some p => Except.ok (q.filter (timePeriodPred now p))

/-- Python str() applied to the tag argument of has_tag: an Ltree renders as
its path, and None renders as the string "None", which then behaves as a
one-label ltree path. -/
def pyStrTag : Option Ltree → Ltree
  | none => ["None"]
  | some t => t

/-- Predicate added by TopicQuery.has_tag: Topic._tags.descendant_of(tag),
i.e. some tag of the topic is the given tag or a descendant of it. -/
def hasTagPred (tag : Option Ltree) (t : Topic) : Bool :=
  t.tags.any (fun tt => ltreeDescendantOf tt (pyStrTag tag))

/-- TopicQuery.has_tag (topic_query.py lines 126-134): casts the tag to a
string first (str(None) = "None"), then filters on descendant-of. The call
site get_group_topics passes an optional tag, so the argument is optional. -/
def TopicQuery.has_tag (q : TopicQuery) (tag : Option Ltree) : TopicQuery :=
  q.filter (hasTagPred tag)

/-- Predicate added by TopicQuery.is_pinned: Topic.is_pinned == pinned. -/
def isPinnedPred (pinned : Bool) (t : Topic) : Bool :=
  t.is_pinned == pinned

/-- TopicQuery.is_pinned (topic_query.py lines 136-138). -/
def TopicQuery.is_pinned (q : TopicQuery) (pinned : Bool) : TopicQuery :=
  q.filter (isPinnedPred pinned)

/-- TopicQuery.apply_sort_option (topic_query.py lines 92-109): an if/elif
chain over the four enum members assigns self._sort_column; no else branch
exists, so an unmatched value leaves the previous sort column in place;
sort_desc is always set. -/
def TopicQuery.apply_sort_option (q : TopicQuery) (sort : SortArg)
    (desc : Bool) : TopicQuery :=
  let q :=
    if sort = SortArg.known TopicSortOption.votes then
      { q with sort_column := SortColumn.num_votes }
    else if sort = SortArg.known TopicSortOption.comments then
      { q with sort_column := SortColumn.num_comments }
    else if sort = SortArg.known TopicSortOption.new then
      { q with sort_column := SortColumn.created_time }
    else if sort = SortArg.known TopicSortOption.activity then
      { q with sort_column := SortColumn.last_activity_time }
    else q
  { q with sort_desc := desc }

/-- A raw row handed to _process_result: either a bare Topic (no extra
user-data columns were attached, the anonymous path of _attach_extra_data,
topic_query.py lines 31-34) or a Topic plus the extra columns user_voted,
visit_time and num_comments attached for a logged-in viewer. -/
inductive RawRow where
  | bare (t : Topic)
  | extra (t : Topic) (user_voted : Bool) (visit_time : Option Int)
      (num_comments : Option Int)
deriving DecidableEq, Repr

/-- The annotated topic produced by _process_result: the topic with the three
viewer-context attributes set on it. An attribute the source never assigns in
the extra branch (comments_since_last_visit when the visit snapshot column is
null) is modelled as none, per the spec data model. -/
structure AnnotatedTopic where
  topic : Topic
  user_voted : Bool
  last_visit_time : Option Int
  comments_since_last_visit : Option Int
deriving DecidableEq, Repr

/-- TopicQuery._process_result (topic_query.py lines 70-90): a bare Topic
gets the fixed defaults (false, None, None); a row with extra columns copies
user_voted and visit_time, and when the num_comments snapshot column is
non-null sets comments_since_last_visit to
max(topic.num_comments - snapshot, 0). -/
def process_result : RawRow → AnnotatedTopic
  | RawRow.bare t =>
      { topic := t
        user_voted := false
        last_visit_time := none
        comments_since_last_visit := none }
  | RawRow.extra t uv vt nc =>
      { topic := t
        user_voted := uv
        last_visit_time := vt
        comments_since_last_visit :=
          match nc with
          | some k => some (max (t.num_comments - k) 0)
          | none => none }

/-- Viewer preferences read by the listing core (user model is outside src/,
modelled from the spec data model). Duration codes are modelled as the hour
count they encode. -/
structure User where
  home_default_order : Option TopicSortOption
  home_default_period : Option Nat
  track_comment_visits : Bool
deriving DecidableEq, Repr

/-- A UserGroupSettings row for one (viewer, group) pair (model outside src/,
modelled from the spec data model). -/
structure UserGroupSettings where
  default_order : Option TopicSortOption
  default_period : Option Nat
deriving DecidableEq, Repr

/-- The row shape produced per topic by _attach_extra_data together with
_attach_vote_data and _attach_visit_data (topic_query.py lines 31-68): no
viewer gives a bare row; a logged-in viewer gets the vote-existence column,
and the visit columns come from an outer join on the TopicVisit row when
track_comment_visits is enabled (null when no row exists) and are literal
NULL columns when it is disabled. `voted` is the existence of a TopicVote row
for (topic, viewer); `visit` is the TopicVisit row for (topic, viewer), when
one exists. -/
def rowForTopic (viewer : Option User) (voted : Topic → Bool)
    (visit : Option TopicVisit) (t : Topic) : RawRow :=
  match viewer with
  | none => RawRow.bare t
  | some u =>
      if u.track_comment_visits then
        match visit with
        | some v => RawRow.extra t (voted t) (some v.visit_time) (some v.num_comments)
        | none => RawRow.extra t (voted t) none none
      else
        RawRow.extra t (voted t) none none

/-- The listing context of a request: a single group page, or the home page
(all subscribed groups), distinguished in _get_default_settings by
isinstance(request.context, Group). -/
inductive ListingContext where
  | group (g : Group)
  | home
deriving DecidableEq, Repr

/-- The request state _get_default_settings reads: the logged-in viewer, the
listing context, and the UserGroupSettings rows of the viewer, as the
one_or_none lookup per group. -/
structure RequestModel where
  user : User
  context : ListingContext
  userGroupSettings : Group → Option UserGroupSettings

/-- The one_or_none UserGroupSettings lookup of _get_default_settings
(topic.py lines 266-276): only performed when the context is a single Group,
None otherwise. -/
def contextGroupSettings (req : RequestModel) : Option UserGroupSettings :=
  match req.context with
  | ListingContext.group g => req.userGroupSettings g
  | ListingContext.home => none

/-- The DefaultSettings namedtuple (topic.py line 35). -/
structure DefaultSettings where
  order : TopicSortOption
  period : Option SimpleHoursPeriod
deriving DecidableEq, Repr

/-- Modelled from the spec (the ShortTimePeriod schema field is outside
src/): deserializing a short-form duration code yields the hours period it
encodes. -/
def shortTimePeriodDeserialize (code : Nat) : SimpleHoursPeriod :=
  { hours := code }

/-- _get_default_settings (topic.py lines 265-306). The order argument is the
caller's order, which may be missing (modelled as none). Python truthiness of
`user_settings and user_settings.default_order` is: the row exists and the
field is non-null. -/
def getDefaultSettings (req : RequestModel) (order : Option TopicSortOption) :
    DefaultSettings :=
  let user_settings := contextGroupSettings req
  let default_order : TopicSortOption :=
    match user_settings.bind UserGroupSettings.default_order with
    | some o => o
    | none =>
        match req.user.home_default_order with
        | some o => o
        | none => TopicSortOption.activity
  let order : TopicSortOption :=
    match order with
    | none => default_order
    | some o => o
  let default_period : Option SimpleHoursPeriod :=
    match user_settings.bind UserGroupSettings.default_period with
    | some code => some (shortTimePeriodDeserialize code)
    | none =>
        match req.user.home_default_period with
        | some code => some (shortTimePeriodDeserialize code)
        | none =>
            if order = TopicSortOption.new then none
            else if order = TopicSortOption.activity then
              some { hours := 72 }
            else some { hours := 24 }
  { order := default_order, period := default_period }

/-- The three-tier default order cascade as the spec states it: per-group
default_order in a single-group context, else the global home_default_order,
else the system default activity. -/
def resolvedDefaultOrder (req : RequestModel) : TopicSortOption :=
  match req.context with
  | ListingContext.group g =>
      match (req.userGroupSettings g).bind UserGroupSettings.default_order with
      | some o => o
      | none => req.user.home_default_order.getD TopicSortOption.activity
  | ListingContext.home =>
      req.user.home_default_order.getD TopicSortOption.activity

/-- The order-dependent period fallback as the spec states it: new gives no
time restriction, activity a 72-hour window, any other order a 24-hour
window. -/
def orderPeriodFallback : TopicSortOption → Option SimpleHoursPeriod
  | TopicSortOption.new => none
  | TopicSortOption.activity => some { hours := 72 }
  | _ => some { hours := 24 }

/-- One of the four filter-building operations of the listing query, with its
argument. -/
inductive FilterOp where
  | insideGroups (groups : List Group)
  | insideTimePeriod (p : SimpleHoursPeriod)
  | hasTag (tag : Option Ltree)
  | isPinned (b : Bool)

/-- Applying a filter operation to a query, through the corresponding source
method; a present time period goes through the ok branch of
inside_time_period. -/
def FilterOp.apply (op : FilterOp) (now : Int) (db : List Group)
    (q : TopicQuery) : TopicQuery :=
  match op with
  | FilterOp.insideGroups gs => q.inside_groups db gs
  | FilterOp.insideTimePeriod p => q.filter (timePeriodPred now p)
  | FilterOp.hasTag tg => q.has_tag tg
  | FilterOp.isPinned b => q.is_pinned b

/-- The predicate a filter operation appends. -/
def FilterOp.pred (op : FilterOp) (now : Int) (db : List Group) :
    Topic → Bool :=
  match op with
  | FilterOp.insideGroups gs => insideGroupsPred db gs
  | FilterOp.insideTimePeriod p => timePeriodPred now p
  | FilterOp.hasTag tg => hasTagPred tg
  | FilterOp.isPinned b => isPinnedPred b

/-! Concrete fixtures used by closed instances. -/

/-- A base query with no filters applied yet. -/
def emptyQuery : TopicQuery :=
  { filters := [], sort_column := SortColumn.created_time, sort_desc := true }

/-- A concrete topic tagged food with five comments. -/
def foodTopic : Topic :=
  { topic_id := 1, group_id := 1, created_time := 100, last_activity_time := 100,
    num_votes := 0, num_comments := 5, is_pinned := false, tags := [["food"]] }

/-- A concrete query whose current sort column is the comment count. -/
def commentsSortedQuery : TopicQuery :=
  { filters := [], sort_column := SortColumn.num_comments, sort_desc := false }

/-- A concrete viewer with comment-visit tracking disabled. -/
def noTrackUser : User :=
  { home_default_order := none, home_default_period := none,
    track_comment_visits := false }

/-- A concrete viewer whose global home default order is comments. -/
def commentsHomeUser : User :=
  { home_default_order := some TopicSortOption.comments,
    home_default_period := none, track_comment_visits := true }

/-- A concrete group. -/
def groupA : Group := { group_id := 10, path := ["a"] }

/-- A concrete per-group settings row whose default order is votes. -/
def votesGroupSettings : UserGroupSettings :=
  { default_order := some TopicSortOption.votes, default_period := none }

/-! Helper lemmas shared by the claim proofs. -/

/-- Appending one filter conjoins its predicate to the membership test. -/
theorem matches_filter (q : TopicQuery) (p : Topic → Bool) (t : Topic) :
    (q.filter p).matches t = (q.matches t && p t) := by
  simp [TopicQuery.filter, TopicQuery.matches, List.all_append]

/-- Every filter operation is one .filter call with its predicate. -/
theorem apply_eq_filter (op : FilterOp) (now : Int) (db : List Group)
    (q : TopicQuery) :
    op.apply now db q = q.filter (op.pred now db) := by
  cases op <;> rfl

/-- The order component of the resolver output is the three-tier cascade and
does not depend on the caller's order argument. -/
theorem getDefaultSettings_order_eq (req : RequestModel)
    (eo : Option TopicSortOption) :
    (getDefaultSettings req eo).order = resolvedDefaultOrder req := by
  cases req with
  | mk u ctx f =>
      cases ctx with
      | group g =>
          cases ho : (f g).bind UserGroupSettings.default_order with
          | some o =>
              simp [getDefaultSettings, contextGroupSettings,
                resolvedDefaultOrder, ho]
          | none =>
              cases hh : u.home_default_order <;>
                simp [getDefaultSettings, contextGroupSettings,
                  resolvedDefaultOrder, ho, hh]
      | home =>
          cases hh : u.home_default_order <;>
            simp [getDefaultSettings, contextGroupSettings,
              resolvedDefaultOrder, hh]

/-- The order-dependent fallback written as the if chain of the source. -/
theorem orderPeriodFallback_eq_ite (o : TopicSortOption) :
    orderPeriodFallback o
      = (if o = TopicSortOption.new then none
         else if o = TopicSortOption.activity then
           some { hours := 72 }
         else some { hours := 24 }) := by
  cases o <;> rfl

/-! Claim theorems. -/

/-- Claim C1: the code does not make inside_time_period a no-op on an
absent/null period — the body evaluates period.timedelta unconditionally, so
for every base query and clock the call with a null period raises
AttributeError instead of returning the base query unchanged. -/
theorem inside_time_period_none_raises (q : TopicQuery) (now : Int) :
    q.inside_time_period now none
      = Except.error
          (PyError.attributeError "NoneType object has no attribute timedelta") :=
  rfl

/-- Claim C2: the resolver computes the default period by the cascade
group-level default_period setting, else the global home_default_period, else
the order-dependent fallback (new gives no restriction, activity 72 hours,
anything else 24 hours) evaluated on the caller's explicit order when one was
supplied and on the resolved default order otherwise. -/
theorem getDefaultSettings_period_cascade (req : RequestModel)
    (eo : Option TopicSortOption) :
    (getDefaultSettings req eo).period
      = (match (contextGroupSettings req).bind UserGroupSettings.default_period with
         | some code => some (shortTimePeriodDeserialize code)
         | none =>
             match req.user.home_default_period with
             | some code => some (shortTimePeriodDeserialize code)
             | none => orderPeriodFallback (eo.getD (resolvedDefaultOrder req))) := by
  have horder := getDefaultSettings_order_eq req eo
  cases hg : (contextGroupSettings req).bind UserGroupSettings.default_period with
  | some code => simp [getDefaultSettings, hg]
  | none =>
      cases hh : req.user.home_default_period with
      | some code => simp [getDefaultSettings, hg, hh]
      | none =>
          cases eo with
          | some o =>
              simp [getDefaultSettings, hg, hh, orderPeriodFallback_eq_ite]
          | none =>
              have hres := getDefaultSettings_order_eq req none
              simp [getDefaultSettings] at hres
              simp [getDefaultSettings, hg, hh, orderPeriodFallback_eq_ite,
                hres]

/-- Claim C3: annotating a row with a non-null visit snapshot k sets
comments_since_last_visit to max(num_comments - k, 0), hence never negative;
in particular five comments against a snapshot of eight yields zero. -/
theorem process_result_comments_since_last_visit (t : Topic) (uv : Bool)
    (vt : Option Int) (k : Int) :
    (process_result (RawRow.extra t uv vt (some k))).comments_since_last_visit
        = some (max (t.num_comments - k) 0)
      ∧ (process_result
            (RawRow.extra foodTopic false none (some 8))).comments_since_last_visit
        = some 0 := by
  refine ⟨rfl, by decide⟩

/-- Claim C4 counterexample: apply_sort_option on a concrete value matching
none of the four sort keys returns normally with the previously selected sort
column (comment count) still in effect — it does not raise. -/
theorem apply_sort_option_unmatched_no_error :
    (commentsSortedQuery.apply_sort_option (SortArg.unmatched "bogus") true).sort_column
      = SortColumn.num_comments := rfl

/-- Claim C4 as amended: for every sort value matching none of the four known
sort keys, apply_sort_option raises no error and leaves the previously
selected sort column in effect, only updating the sort direction. -/
theorem apply_sort_option_unmatched_keeps_sort_column (q : TopicQuery)
    (s : SortArg) (desc : Bool)
    (h1 : s ≠ SortArg.known TopicSortOption.votes)
    (h2 : s ≠ SortArg.known TopicSortOption.comments)
    (h3 : s ≠ SortArg.known TopicSortOption.new)
    (h4 : s ≠ SortArg.known TopicSortOption.activity) :
    (q.apply_sort_option s desc).sort_column = q.sort_column
      ∧ (q.apply_sort_option s desc).sort_desc = desc
      ∧ (q.apply_sort_option s desc).filters = q.filters := by
  simp [TopicQuery.apply_sort_option, h1, h2, h3, h4]

/-- Witness for the amended claim C4, at a concrete unmatched sort value and
a concrete query sorted by comment count. -/
theorem apply_sort_option_unmatched_keeps_sort_column_witness :
    (commentsSortedQuery.apply_sort_option (SortArg.unmatched "x") true).sort_column
        = SortColumn.num_comments
      ∧ (commentsSortedQuery.apply_sort_option (SortArg.unmatched "x") true).sort_desc
        = true := by
  have h := apply_sort_option_unmatched_keeps_sort_column commentsSortedQuery
    (SortArg.unmatched "x") true (by decide) (by decide) (by decide) (by decide)
  exact ⟨h.1, h.2.1⟩

/-- Claim C5: the code does not make has_tag a no-op on an absent/null tag —
str(None) is the string "None", so the call filters on the literal ltree path
None; a topic tagged food passes the base query but is excluded by
has_tag(None), so the result set changes. -/
theorem has_tag_none_not_noop :
    (emptyQuery.has_tag none).matches foodTopic = false
      ∧ emptyQuery.matches foodTopic = true := by
  refine ⟨by decide, by decide⟩

/-- Claim C6: in a single-group context the resolved default order is the
(viewer, group) default_order when the row exists with it non-null (taking
precedence over the global setting), else the non-null global
home_default_order, else activity. -/
theorem default_order_cascade (u : User)
    (f : Group → Option UserGroupSettings) (g : Group)
    (eo : Option TopicSortOption) :
    (∀ o, (f g).bind UserGroupSettings.default_order = some o →
        (getDefaultSettings
          { user := u, context := ListingContext.group g,
            userGroupSettings := f } eo).order = o)
      ∧ ((f g).bind UserGroupSettings.default_order = none →
          ∀ o, u.home_default_order = some o →
          (getDefaultSettings
            { user := u, context := ListingContext.group g,
              userGroupSettings := f } eo).order = o)
      ∧ ((f g).bind UserGroupSettings.default_order = none →
          u.home_default_order = none →
          (getDefaultSettings
            { user := u, context := ListingContext.group g,
              userGroupSettings := f } eo).order = TopicSortOption.activity) := by
  refine ⟨?_, ?_, ?_⟩ <;> intros <;>
    simp [getDefaultSettings, contextGroupSettings, *]

/-- Witness for claim C6: a group-level votes default overrides a global
comments default. -/
theorem default_order_cascade_witness :
    (getDefaultSettings
      { user := commentsHomeUser, context := ListingContext.group groupA,
        userGroupSettings := fun _ => some votesGroupSettings } none).order
      = TopicSortOption.votes :=
  (default_order_cascade commentsHomeUser (fun _ => some votesGroupSettings)
    groupA none).1 TopicSortOption.votes rfl

/-- Claim C7: annotating the bare row produced for an anonymous viewer yields
exactly user_voted false, last_visit_time null and comments_since_last_visit
null, for every topic. -/
theorem process_result_anonymous_defaults (voted : Topic → Bool)
    (visit : Option TopicVisit) (t : Topic) :
    process_result (rowForTopic none voted visit t)
      = { topic := t, user_voted := false, last_visit_time := none,
          comments_since_last_visit := none } := rfl

/-- Claim C8: for a logged-in viewer, comments_since_last_visit is null
exactly when the viewer has no TopicVisit row for the topic or visit tracking
is disabled; and with tracking disabled the row carries literal null visit
columns regardless of any visit row. -/
theorem comments_since_last_visit_null_iff (u : User) (voted : Topic → Bool)
    (visit : Option TopicVisit) (t : Topic) :
    ((process_result
          (rowForTopic (some u) voted visit t)).comments_since_last_visit = none
        ↔ (visit = none ∨ u.track_comment_visits = false))
      ∧ (u.track_comment_visits = false →
          rowForTopic (some u) voted visit t
            = RawRow.extra t (voted t) none none) := by
  cases hv : visit <;> cases ht : u.track_comment_visits <;>
    simp [rowForTopic, process_result, ht]

/-- Witness for claim C8: with tracking disabled and a visit row present, the
annotation is null and the row carries literal nulls. -/
theorem comments_since_last_visit_null_iff_witness :
    ((process_result
          (rowForTopic (some noTrackUser) (fun _ => true)
            (some { visit_time := 7, num_comments := 3 })
            foodTopic)).comments_since_last_visit = none)
      ∧ rowForTopic (some noTrackUser) (fun _ => true)
          (some { visit_time := 7, num_comments := 3 }) foodTopic
        = RawRow.extra foodTopic true none none := by
  refine ⟨?_, ?_⟩
  · exact (comments_since_last_visit_null_iff noTrackUser (fun _ => true)
      (some { visit_time := 7, num_comments := 3 }) foodTopic).1.mpr
      (Or.inr rfl)
  · exact (comments_since_last_visit_null_iff noTrackUser (fun _ => true)
      (some { visit_time := 7, num_comments := 3 }) foodTopic).2 rfl

/-- Claim C9: any two of the filter operations inside_groups,
inside_time_period, has_tag and is_pinned applied in either order to any base
query give queries with the same result set over any topic collection. -/
theorem filter_ops_commute (now : Int) (db : List Group) (op1 op2 : FilterOp)
    (q : TopicQuery) (topics : List Topic) :
    (op2.apply now db (op1.apply now db q)).resultSet topics
      = (op1.apply now db (op2.apply now db q)).resultSet topics := by
  have hpt : ∀ t, (op2.apply now db (op1.apply now db q)).matches t
      = (op1.apply now db (op2.apply now db q)).matches t := by
    intro t
    simp [apply_eq_filter, matches_filter, Bool.and_assoc]
    rw [Bool.and_comm (op1.pred now db t) (op2.pred now db t)]
  simp only [TopicQuery.resultSet]
  exact List.filter_congr (fun t _ => hpt t)

/-- Claim C10: the order component of the resolver output is always the
resolved default order (group setting, else global, else activity); the
caller's explicit order never appears in the returned pair. -/
theorem getDefaultSettings_order_ignores_explicit (req : RequestModel)
    (eo : Option TopicSortOption) :
    (getDefaultSettings req eo).order = resolvedDefaultOrder req
      ∧ (getDefaultSettings req eo).order
        = (getDefaultSettings req none).order := by
  refine ⟨getDefaultSettings_order_eq req eo, ?_⟩
  rw [getDefaultSettings_order_eq req eo, getDefaultSettings_order_eq req none]

end Tildes
